import Mathlib

/-!
Verification of the drawing toolkit in scripts/generate_launch_infographics.py.

The script layers a tiny 2D toolkit (panel, bullet, arrow, and a
normalized-point to pixel chart mapping) over raster drawing primitives and
uses it to render four fixed infographic images.  We embed the toolkit
shallowly: each composite shape becomes a Lean function producing the list of
primitive drawing operations it performs, in order; font resolution becomes a
function over an abstract file-system state; the chart mapping works over
exact rationals with Python's int() truncation made explicit.
-/

/-- Color values are the hex strings used by the script. -/
abbrev Color := String

def BG : Color := "#0B1220"

def SURFACE : Color := "#111B30"

def SURFACE_ALT : Color := "#0F172A"

def BORDER : Color := "#1F2A44"

def TEXT : Color := "#E5E7EB"

def MUTED : Color := "#94A3B8"

def GREEN : Color := "#16A34A"

def RED : Color := "#EF4444"

def BLUE : Color := "#38BDF8"

def AMBER : Color := "#F59E0B"

/-- A font handle: either a truetype font loaded from a path at a size, or the
built-in default bitmap font returned by ImageFont.load_default(). -/
inductive Font where
  | truetype (path : String) (size : Nat)
  | builtinDefault
deriving DecidableEq, Repr

/-- Abstract file-system state seen by the font function: which paths exist,
and the result of attempting ImageFont.truetype on a path at a size (none
models the call raising, which the source catches). -/
structure FS where
  pathExists : String → Bool
  loadTruetype : String → Nat → Option Font

/-- The priority-ordered candidate font paths from the source. -/
def candidates : List String :=
  ["/System/Library/Fonts/Supplemental/SF Pro Text.ttf",
   "/System/Library/Fonts/Supplemental/Arial Unicode.ttf",
   "/Library/Fonts/Arial.ttf"]

/-- The candidate loop body of font: try each path in order; a path is used
when it exists and ImageFont.truetype succeeds on it; a raising load is caught
and the next candidate tried; an exhausted list falls back to the default. -/
def tryCandidates (fs : FS) (size : Nat) : List String → Font
  | [] => Font.builtinDefault
  | p :: rest =>
    if fs.pathExists p then
      match fs.loadTruetype p size with
      | some f => f
      | none => tryCandidates fs size rest
    else tryCandidates fs size rest

/-- font(size, bold): the bold flag is accepted but never read by the body. -/
def font (fs : FS) (size : Nat) (bold : Bool) : Font :=
  tryCandidates fs size candidates

/-- An attempt on candidate path p succeeds when p exists and loads. -/
def attemptOk (fs : FS) (size : Nat) (p : String) : Prop :=
  fs.pathExists p = true ∧ (fs.loadTruetype p size).isSome = true

instance (fs : FS) (size : Nat) (p : String) : Decidable (attemptOk fs size p) := by
  unfold attemptOk; infer_instance

/-- The five module-level font constants, resolved from a file-system state. -/
structure Fonts where
  fTitle : Font
  fH2 : Font
  fH3 : Font
  fBody : Font
  fCap : Font
deriving DecidableEq, Repr

/-- F_TITLE = font(58, bold), F_H2 = font(36, bold), F_H3 = font(28, bold),
F_BODY = font(24), F_CAP = font(20). -/
def resolveFonts (fs : FS) : Fonts :=
  { fTitle := font fs 58 true
    fH2 := font fs 36 true
    fH3 := font fs 28 true
    fBody := font fs 24 false
    fCap := font fs 20 false }

/-- A file-system state with no font files at all. -/
def fsEmpty : FS :=
  { pathExists := fun _ => false
    loadTruetype := fun _ _ => none }

/-- Fonts as resolved when no candidate path exists. -/
def defaultFonts : Fonts := resolveFonts fsEmpty

/-- One primitive drawing operation on the raster canvas, mirroring the
ImageDraw calls the script makes. -/
inductive DrawOp where
  | roundedRect (x0 y0 x1 y1 : ℤ) (radius : ℕ)
      (fill : Option Color) (outline : Option Color) (width : ℕ)
  | textOp (x y : ℤ) (s : String) (fill : Color) (fnt : Font)
  | lineOp (ps : List (ℤ × ℤ)) (fill : Color) (width : ℕ)
  | polygonOp (ps : List (ℤ × ℤ)) (fill : Color)
  | ellipseOp (x0 y0 x1 y1 : ℤ) (fill : Color)
deriving DecidableEq, Repr

/-- Modelled from the spec: the primitive layer (Pillow's ImageDraw, not part
of this repository) is specified to raise on invalid geometry — zero or
negative width or height passed to a shape — and to complete otherwise.
rounded_rectangle with corners (x0,y0,x1,y1) therefore fails exactly when
x1 ≤ x0 or y1 ≤ y0. -/
def rounded_rectangle (x0 y0 x1 y1 : ℤ) (radius : ℕ)
    (fill : Option Color) (outline : Option Color) (width : ℕ) :
    Except String DrawOp :=
  if x1 ≤ x0 ∨ y1 ≤ y0 then
    Except.error "invalid geometry"
  else
    Except.ok (DrawOp.roundedRect x0 y0 x1 y1 radius fill outline width)

/-- Python truthiness of the optional title argument: if title: is taken
exactly when the title is neither None nor the empty string. -/
def truthy : Option String → Bool
  | none => false
  | some s => !(s == "")

/-- panel(draw, x, y, w, h, title): one rounded rectangle over
(x, y, x+w, y+h) with radius 20, SURFACE fill, BORDER outline, width 2;
when the title is truthy, one text at (x+20, y+14) in TEXT with F_H3.
Errors of the primitive propagate (the source has no handler here). -/
def panel (fonts : Fonts) (x y w h : ℤ) (title : Option String) :
    Except String (List DrawOp) := do
  let r ← rounded_rectangle x y (x + w) (y + h) 20 (some SURFACE) (some BORDER) 2
  pure ([r] ++
    (if truthy title then
      [DrawOp.textOp (x + 20) (y + 14) (title.getD "") TEXT fonts.fH3]
    else []))

/-- bullet(draw, x, y, text, color): a filled ellipse with bounding box
(x, y+8, x+10, y+18) in the given color, then the label at (x+18, y) in the
theme TEXT color with F_BODY. -/
def bullet (fonts : Fonts) (x y : ℤ) (t : String) (c : Color) : List DrawOp :=
  [DrawOp.ellipseOp x (y + 8) (x + 10) (y + 18) c,
   DrawOp.textOp (x + 18) y t TEXT fonts.fBody]

/-- A call of bullet whose color argument may be omitted: Python fills an
omitted color with the default GREEN. -/
def bulletCall (fonts : Fonts) (x y : ℤ) (t : String) (c : Option Color) :
    List DrawOp :=
  bullet fonts x y t (c.getD GREEN)

/-- arrow(draw, x1, y1, x2, y2, color): the line from (x1,y1) to (x2,y2) at
width 4, then the filled tip triangle, rightward when x2 >= x1 and leftward
otherwise. -/
def arrow (x1 y1 x2 y2 : ℤ) (c : Color) : List DrawOp :=
  [DrawOp.lineOp [(x1, y1), (x2, y2)] c 4,
   DrawOp.polygonOp
     (if x2 ≥ x1 then
       [(x2, y2), (x2 - 14, y2 - 8), (x2 - 14, y2 + 8)]
     else
       [(x2, y2), (x2 + 14, y2 - 8), (x2 + 14, y2 + 8)]) c]

/-- A call of arrow whose color argument may be omitted: the default is BLUE. -/
def arrowCall (x1 y1 x2 y2 : ℤ) (c : Option Color) : List DrawOp :=
  arrow x1 y1 x2 y2 (c.getD BLUE)

/-- Python's int() applied to an exact rational: truncation toward zero. -/
def pyInt (q : ℚ) : ℤ :=
  if 0 ≤ q then ⌊q⌋ else ⌈q⌉

/-- One normalized chart point mapped into the chart bounds, as in to_xy:
(chart_x + int(px * chart_w), chart_y + int(py * chart_h)). -/
def map_point (chart_x chart_y chart_w chart_h : ℤ) (p : ℚ × ℚ) : ℤ × ℤ :=
  (chart_x + pyInt (p.1 * (chart_w : ℚ)), chart_y + pyInt (p.2 * (chart_h : ℚ)))

/-- to_xy(points) from render_leak_detection, with the chart bounds the
closure captures made explicit parameters. -/
def to_xy (chart_x chart_y chart_w chart_h : ℤ) (points : List (ℚ × ℚ)) :
    List (ℤ × ℤ) :=
  points.map (map_point chart_x chart_y chart_w chart_h)

/-- The green local-usage series of render_leak_detection. -/
def points_local : List (ℚ × ℚ) :=
  [(0.05, 0.78), (0.20, 0.70), (0.35, 0.58), (0.50, 0.54),
   (0.65, 0.48), (0.80, 0.44), (0.93, 0.40)]

/-- The red remote-usage series of render_leak_detection. -/
def points_remote : List (ℚ × ℚ) :=
  [(0.05, 0.78), (0.20, 0.70), (0.35, 0.58), (0.50, 0.51),
   (0.65, 0.40), (0.80, 0.30), (0.93, 0.18)]

/-- render_architecture, as the sequence of drawing operations it performs on
its canvas (the final img.save is the file write, not a drawing mutation).
All geometry and strings are literals in the source; the only external input
is the resolved font set. -/
def render_architecture (fonts : Fonts) : Except String (List DrawOp) := do
  let p1 ← panel fonts 56 180 280 260 (some "Clients")
  let p2 ← panel fonts 390 180 280 260 (some "Transport")
  let p3 ← panel fonts 724 180 360 260 (some "Tokfence Core")
  let p4 ← panel fonts 1138 180 340 260 (some "Providers")
  let p5 ← panel fonts 56 500 700 440 (some "Security Layer (ImmuneFence)")
  let p6 ← panel fonts 800 500 678 440 (some "Data Plane Guarantees")
  pure
    ([DrawOp.textOp 56 40 "Tokfence Architecture" TEXT fonts.fTitle,
      DrawOp.textOp 56 112
        "Agents-first desktop + UDS/TCP dual transport + ImmuneFence"
        MUTED fonts.fCap] ++
     p1 ++
     bulletCall fonts 82 242 "OpenClaw" none ++
     bulletCall fonts 82 286 "CLI" none ++
     bulletCall fonts 82 330 "Desktop App" none ++
     p2 ++
     bulletCall fonts 416 242 "UDS: ~/.tokfence/tokfence.sock" (some BLUE) ++
     bulletCall fonts 416 286 "TCP: 127.0.0.1:9471" (some BLUE) ++
     bulletCall fonts 416 330 "Socket perms: 0660" (some BLUE) ++
     p3 ++
     bulletCall fonts 750 242 "Proxy routing + header sanitization" none ++
     bulletCall fonts 750 286 "Budget + rate limits + kill switch" none ++
     bulletCall fonts 750 330 "Live logs + stats + watch" none ++
     p4 ++
     bulletCall fonts 1164 242 "Anthropic / OpenAI / Groq" none ++
     bulletCall fonts 1164 286 "Mistral / Google / OpenRouter" none ++
     bulletCall fonts 1164 330 "Custom upstreams" none ++
     arrowCall 336 310 390 310 none ++
     arrowCall 670 310 724 310 none ++
     arrowCall 1084 310 1138 310 none ++
     p5 ++
     bulletCall fonts 84 562 "Capability token validation (Ed25519)" none ++
     bulletCall fonts 84 606 "Risk ladder: GREEN -> YELLOW -> ORANGE -> RED"
       (some AMBER) ++
     bulletCall fonts 84 650 "Sensor scans: secret refs, endpoint abuse" none ++
     bulletCall fonts 84 694 "Canary leak tripwire -> RED escalation"
       (some RED) ++
     bulletCall fonts 84 738 "Scope restrictions per risk state" none ++
     p6 ++
     bulletCall fonts 828 562 "Keys stay in vault (Keychain/Argon2 file)" none ++
     bulletCall fonts 828 606 "Agent receives dummy apiKey only" none ++
     bulletCall fonts 828 650 "Upstream auth injected at request time" none ++
     bulletCall fonts 828 694 "No secret bodies in normal request logs" none ++
     bulletCall fonts 828 738 "Desktop snapshots: local-only, 0600" none)

lemma pyInt_intCast (n : ℤ) : pyInt (n : ℚ) = n := by
  unfold pyInt
  split <;> simp

lemma pyInt_mono {a b : ℚ} (hab : a ≤ b) : pyInt a ≤ pyInt b := by
  unfold pyInt
  split <;> split
  · exact Int.floor_le_floor hab
  · rename_i ha hb; exact absurd (ha.trans hab) hb
  · rename_i ha hb
    have h1 : ⌈a⌉ ≤ 0 := Int.ceil_le.mpr (by exact_mod_cast le_of_not_le ha)
    exact le_trans h1 (Int.floor_nonneg.mpr hb)
  · exact Int.ceil_le_ceil hab

/-- C2: arrow draws the line from (x1,y1) to (x2,y2) and then a tip triangle
whose orientation depends only on the sign of x2 - x1: when x2 >= x1
(including x1 = x2) the tip is at (x2,y2) with base corners (x2-14, y2±8);
when x2 < x1 the base corners are (x2+14, y2±8). -/
theorem arrow_orientation (x1 y1 x2 y2 : ℤ) (c : Color) :
    (x1 ≤ x2 →
      arrow x1 y1 x2 y2 c =
        [DrawOp.lineOp [(x1, y1), (x2, y2)] c 4,
         DrawOp.polygonOp [(x2, y2), (x2 - 14, y2 - 8), (x2 - 14, y2 + 8)] c]) ∧
    (x2 < x1 →
      arrow x1 y1 x2 y2 c =
        [DrawOp.lineOp [(x1, y1), (x2, y2)] c 4,
         DrawOp.polygonOp [(x2, y2), (x2 + 14, y2 - 8), (x2 + 14, y2 + 8)] c]) := by
  constructor
  · intro h
    simp [arrow, ge_iff_le, h]
  · intro h
    simp [arrow, ge_iff_le, not_le.mpr h]

/-- Witness for C2: arrow(336,310,390,310) yields a rightward tip with vertex
(390,310) and base corners (376,302) and (376,318); swapping the endpoints
yields the leftward tip. -/
theorem arrow_orientation_witness :
    arrow 336 310 390 310 BLUE =
      [DrawOp.lineOp [(336, 310), (390, 310)] BLUE 4,
       DrawOp.polygonOp [(390, 310), (376, 302), (376, 318)] BLUE] ∧
    arrow 390 310 336 310 BLUE =
      [DrawOp.lineOp [(390, 310), (336, 310)] BLUE 4,
       DrawOp.polygonOp [(336, 310), (350, 302), (350, 318)] BLUE] := by
  constructor
  · have h := (arrow_orientation 336 310 390 310 BLUE).1 (by norm_num)
    norm_num at h
    exact h
  · have h := (arrow_orientation 390 310 336 310 BLUE).2 (by norm_num)
    norm_num at h
    exact h

/-- C7: bullet draws a filled circle of diameter 10 with bounding box
(x, y+8, x+10, y+18) in the given color, then the label at (x+18, y) in the
theme TEXT color; an omitted color argument defaults to GREEN. -/
theorem bullet_draws (fonts : Fonts) (x y : ℤ) (t : String) (c : Color) :
    bullet fonts x y t c =
      [DrawOp.ellipseOp x (y + 8) (x + 10) (y + 18) c,
       DrawOp.textOp (x + 18) y t TEXT fonts.fBody] ∧
    bulletCall fonts x y t none = bullet fonts x y t GREEN :=
  ⟨rfl, rfl⟩

/-- C9: the bold parameter of font has no effect on the result: for every
file-system state and size, font(size, bold=True) and font(size, bold=False)
return the same handle. -/
theorem font_bold_no_effect (fs : FS) (size : Nat) :
    font fs size true = font fs size false :=
  rfl

/-- C8: rendering is deterministic: render_architecture is a function of its
resolved fonts alone, so two runs with identically resolved fonts perform the
identical sequence of drawing operations, and any rasterizer applied to that
sequence produces identical images. -/
theorem render_architecture_deterministic (f1 f2 : Fonts) (h : f1 = f2) :
    render_architecture f1 = render_architecture f2 ∧
    ∀ (R : Type) (rasterize : Except String (List DrawOp) → R),
      rasterize (render_architecture f1) = rasterize (render_architecture f2) := by
  subst h
  exact ⟨rfl, fun _ _ => rfl⟩

/-- Witness for C8 at the default font set. -/
theorem render_architecture_deterministic_witness :
    render_architecture defaultFonts = render_architecture defaultFonts :=
  (render_architecture_deterministic defaultFonts defaultFonts rfl).1

/-- C3: panel never completes successfully on zero or negative width or
height: the (spec-modelled) primitive raises on the degenerate rectangle and
panel propagates the error to its caller. -/
theorem panel_invalid_geometry (fonts : Fonts) (x y w h : ℤ)
    (title : Option String) (hwh : w ≤ 0 ∨ h ≤ 0) :
    ∃ e, panel fonts x y w h title = Except.error e := by
  refine ⟨"invalid geometry", ?_⟩
  simp [panel, rounded_rectangle, hwh]

/-- Witness for C3: a zero-width panel call fails. -/
theorem panel_invalid_geometry_witness :
    ∃ e, panel defaultFonts 100 100 0 50 none = Except.error e :=
  panel_invalid_geometry defaultFonts 100 100 0 50 none (Or.inl (by norm_num))

/-- C5: for positive width and height and a present (non-empty) title, panel
draws exactly one rounded rectangle with bounding box (x, y, x+w, y+h) and
the title text anchored at (x+20, y+14). -/
theorem panel_draws_title (fonts : Fonts) (x y w h : ℤ) (hw : 0 < w)
    (hh : 0 < h) (t : String) (ht : t ≠ "") :
    panel fonts x y w h (some t) =
      Except.ok
        [DrawOp.roundedRect x y (x + w) (y + h) 20 (some SURFACE) (some BORDER) 2,
         DrawOp.textOp (x + 20) (y + 14) t TEXT fonts.fH3] := by
  have hw' : ¬ w ≤ 0 := by omega
  have hh' : ¬ h ≤ 0 := by omega
  simp [panel, rounded_rectangle, truthy, hw', hh', ht]

/-- Witness for C5: bounds (56,180,280,260) with title Clients give the
rounded rectangle (56,180,336,440) and the title anchored at (76,194). -/
theorem panel_draws_title_witness :
    panel defaultFonts 56 180 280 260 (some "Clients") =
      Except.ok
        [DrawOp.roundedRect 56 180 336 440 20 (some SURFACE) (some BORDER) 2,
         DrawOp.textOp 76 194 "Clients" TEXT defaultFonts.fH3] := by
  have h := panel_draws_title defaultFonts 56 180 280 260 (by norm_num)
    (by norm_num) "Clients" (by decide)
  norm_num at h
  exact h

/-- C10: panel treats an empty-string title exactly like an absent one: the
call equals the title-less call, and on valid geometry it draws only the
rounded rectangle, with no title text. -/
theorem panel_empty_title (fonts : Fonts) (x y w h : ℤ) :
    panel fonts x y w h (some "") = panel fonts x y w h none ∧
    (0 < w → 0 < h →
      panel fonts x y w h (some "") =
        Except.ok
          [DrawOp.roundedRect x y (x + w) (y + h) 20
            (some SURFACE) (some BORDER) 2]) := by
  constructor
  · rfl
  · intro hw hh
    have hw' : ¬ w ≤ 0 := by omega
    have hh' : ¬ h ≤ 0 := by omega
    simp [panel, rounded_rectangle, truthy, hw', hh']

/-- Witness for C10 on a concrete geometry. -/
theorem panel_empty_title_witness :
    panel defaultFonts 10 20 30 40 (some "") =
      Except.ok
        [DrawOp.roundedRect 10 20 40 60 20 (some SURFACE) (some BORDER) 2] := by
  have h := (panel_empty_title defaultFonts 10 20 30 40).2 (by norm_num) (by norm_num)
  norm_num at h
  exact h

/-- C6: the chart mapping is affine and order-preserving: for positive bounds
(0,0) maps to the origin corner, (1,1) to the opposite corner, and each pixel
coordinate is monotone in the matching normalized coordinate. -/
theorem to_xy_affine_monotone (bx bY bw bh : ℤ) (hbw : 0 < bw) (hbh : 0 < bh) :
    to_xy bx bY bw bh [(0, 0), (1, 1)] = [(bx, bY), (bx + bw, bY + bh)] ∧
    (∀ p1 p2 : ℚ × ℚ, p1.1 ≤ p2.1 →
      (map_point bx bY bw bh p1).1 ≤ (map_point bx bY bw bh p2).1) ∧
    (∀ p1 p2 : ℚ × ℚ, p1.2 ≤ p2.2 →
      (map_point bx bY bw bh p1).2 ≤ (map_point bx bY bw bh p2).2) := by
  refine ⟨?_, ?_, ?_⟩
  · have h0 : pyInt ((0 : ℚ)) = 0 := by
      unfold pyInt; simp
    simp [to_xy, map_point, h0, pyInt_intCast]
  · intro p1 p2 h
    have hw : (0 : ℚ) ≤ (bw : ℚ) := by exact_mod_cast hbw.le
    exact add_le_add_left (pyInt_mono (mul_le_mul_of_nonneg_right h hw)) bx
  · intro p1 p2 h
    have hh : (0 : ℚ) ≤ (bh : ℚ) := by exact_mod_cast hbh.le
    exact add_le_add_left (pyInt_mono (mul_le_mul_of_nonneg_right h hh)) bY

/-- Witness for C6 on concrete bounds (5,7,11,13). -/
theorem to_xy_affine_monotone_witness :
    to_xy 5 7 11 13 [(0, 0), (1, 1)] = [(5, 7), (16, 20)] := by
  have h := (to_xy_affine_monotone 5 7 11 13 (by norm_num) (by norm_num)).1
  norm_num at h
  exact h

/-- C1 counterexample: in chart bounds (92,560,1360,300) the last point
(0.93, 0.40) of points_local maps to pixel x = 92 + int(0.93*1360)
= 92 + 1264 = 1356, so the final polyline endpoint is not (1358, 680). -/
theorem chart_endpoint_counterexample :
    (to_xy 92 560 1360 300 points_local).getLast? ≠ some (1358, 680) := by
  norm_num [to_xy, points_local, map_point, pyInt]

/-- C1 amended: the polyline for points_local in bounds (92,560,1360,300)
has endpoints (160, 794) and (1356, 680). -/
theorem chart_endpoints_amended :
    (to_xy 92 560 1360 300 points_local).head? = some (160, 794) ∧
    (to_xy 92 560 1360 300 points_local).getLast? = some (1356, 680) := by
  constructor <;> norm_num [to_xy, points_local, map_point, pyInt]

lemma tryCandidates_spec (fs : FS) (size : Nat) (l : List String) :
    (tryCandidates fs size l = Font.builtinDefault ∧
      ∀ p ∈ l, ¬ attemptOk fs size p) ∨
    (∃ pre q post, l = pre ++ q :: post ∧
      (∀ p ∈ pre, ¬ attemptOk fs size p) ∧ attemptOk fs size q ∧
      ∃ f, fs.loadTruetype q size = some f ∧ tryCandidates fs size l = f) := by
  induction l with
  | nil => exact Or.inl ⟨rfl, by simp⟩
  | cons p rest ih =>
    by_cases hE : fs.pathExists p = true
    · cases hL : fs.loadTruetype p size with
      | some f =>
        refine Or.inr ⟨[], p, rest, by simp, by simp, ⟨hE, by simp [hL]⟩, f, hL, ?_⟩
        simp [tryCandidates, hE, hL]
      | none =>
        have hstep : tryCandidates fs size (p :: rest) = tryCandidates fs size rest := by
          simp [tryCandidates, hE, hL]
        have hnp : ¬ attemptOk fs size p := by simp [attemptOk, hL]
        rcases ih with ⟨h1, h2⟩ | ⟨pre, q, post, hsplit, hpre, hq, f, hf, hres⟩
        · refine Or.inl ⟨hstep.trans h1, ?_⟩
          intro x hx
          rcases List.mem_cons.mp hx with rfl | hx
          · exact hnp
          · exact h2 x hx
        · refine Or.inr ⟨p :: pre, q, post, by simp [hsplit], ?_, hq, f, hf, hstep.trans hres⟩
          intro x hx
          rcases List.mem_cons.mp hx with rfl | hx
          · exact hnp
          · exact hpre x hx
    · have hstep : tryCandidates fs size (p :: rest) = tryCandidates fs size rest := by
        simp [tryCandidates, hE]
      have hnp : ¬ attemptOk fs size p := by simp [attemptOk, hE]
      rcases ih with ⟨h1, h2⟩ | ⟨pre, q, post, hsplit, hpre, hq, f, hf, hres⟩
      · refine Or.inl ⟨hstep.trans h1, ?_⟩
        intro x hx
        rcases List.mem_cons.mp hx with rfl | hx
        · exact hnp
        · exact h2 x hx
      · refine Or.inr ⟨p :: pre, q, post, by simp [hsplit], ?_, hq, f, hf, hstep.trans hres⟩
        intro x hx
        rcases List.mem_cons.mp hx with rfl | hx
        · exact hnp
        · exact hpre x hx

/-- C4: font resolution is total; whatever the file-system state, either no
candidate both exists and loads and the result is the built-in default font,
or the result is the font loaded from the first candidate (in the listed
priority order) that exists and loads, every earlier candidate having
failed. In either case a usable handle is returned and no failure escapes. -/
theorem font_resolution_total (fs : FS) (size : Nat) (bold : Bool) :
    (font fs size bold = Font.builtinDefault ∧
      ∀ p ∈ candidates, ¬ attemptOk fs size p) ∨
    (∃ pre q post, candidates = pre ++ q :: post ∧
      (∀ p ∈ pre, ¬ attemptOk fs size p) ∧ attemptOk fs size q ∧
      ∃ f, fs.loadTruetype q size = some f ∧ font fs size bold = f) :=
  tryCandidates_spec fs size candidates

/-- Witness for C4: at the empty file-system state the resolver still returns
a handle, the built-in default. -/
theorem font_resolution_total_witness :
    (font fsEmpty 24 false = Font.builtinDefault ∧
      ∀ p ∈ candidates, ¬ attemptOk fsEmpty 24 p) ∨
    (∃ pre q post, candidates = pre ++ q :: post ∧
      (∀ p ∈ pre, ¬ attemptOk fsEmpty 24 p) ∧ attemptOk fsEmpty 24 q ∧
      ∃ f, fsEmpty.loadTruetype q 24 = some f ∧ font fsEmpty 24 false = f) :=
  font_resolution_total fsEmpty 24 false
